import Mathlib

/-!
Verification development for the netbox-inventory lifecycle plugin.

The definitions below are a shallow embedding of the plugin's core logic:

* `ContractAssignment` with its effective-date fallback resolution and the
  overlap validator `ContractAssignment.clean`
  (src/netbox_inventory/models/contracts.py),
* `AssetProgramCoverage` with its validator chain `AssetProgramCoverage.clean`
  (src/netbox_inventory/models/programs.py),
* the reconciliation pass `_reconcile_coverages_for_asset` /
  `_reconcile_asset_support` (src/netbox_inventory/signals.py),
* the eligibility evaluator `evaluate_asset` and the per-row body of the
  batch sync (src/netbox_inventory/cisco_assets_to_ea_ledger.py),
* the activation action `AssetProgramCoverageActivateView._activate`
  (src/netbox_inventory/views/programs.py),
* `Asset.update_allocation_status` (src/netbox_inventory/models/assets.py).

Calendar dates are embedded as integers written `yyyymmdd`; this encoding is
order-isomorphic to `datetime.date` on the range Python supports, with
`date.min = 0001-01-01` and `date.max = 9999-12-31` mapped to the constants
`dateMinV` and `dateMaxV`.  Nullable model fields are `Option`s; Django
foreign keys are dereferenced inline (an assignment carries its contract and
SKU records, a coverage row carries its asset and program records).
-/

/-- Calendar date, encoded as the integer `yyyymmdd`. -/
abbrev PDate := Int

/-- Python `datetime.date.min` (0001-01-01). -/
def dateMinV : PDate := 10101

/-- Python `datetime.date.max` (9999-12-31). -/
def dateMaxV : PDate := 99991231

/-- `ContractTypeChoices`: support-ea, support-alc, warranty, other. -/
inductive CType
  | supportEA
  | supportALC
  | warranty
  | otherType
deriving DecidableEq

/-- The fields of `Contract` used by assignment validation and activation.
`contract_type` is `none` when the CharField is blank (Python falsy). -/
structure Contract where
  contract_type : Option CType
  start_date : Option PDate
  end_date : Option PDate
deriving DecidableEq

/-- The fields of `ContractSKU` used by validation: the manufacturer FK id
and the SKU contract type. -/
structure ContractSKU where
  sid : Nat
  manufacturer : Nat
  contract_type : Option CType
deriving DecidableEq

/-- `ContractAssignment`: binds an asset (by id) to a (contract, SKU) pair
for a coverage period.  `contract` and `sku` are dereferenced FK rows. -/
structure ContractAssignment where
  pk : Nat
  contract : Option Contract
  sku : Option ContractSKU
  asset : Option Nat
  start_date : Option PDate
  end_date : Option PDate
deriving DecidableEq

/-- `ContractAssignment.effective_start_date`: prefer the explicit start,
fall back to the parent contract start, else unknown. -/
def ContractAssignment.effective_start_date (a : ContractAssignment) : Option PDate :=
  match a.start_date with
  | some d => some d
  | none =>
    match a.contract with
    | some c => c.start_date
    | none => none

/-- `ContractAssignment.effective_end_date`: prefer the explicit end,
fall back to the parent contract end, else open-ended. -/
def ContractAssignment.effective_end_date (a : ContractAssignment) : Option PDate :=
  match a.end_date with
  | some d => some d
  | none =>
    match a.contract with
    | some c => c.end_date
    | none => none

/-- Errors raised by `ContractAssignment.clean`. -/
inductive CleanError
  | dateOrder
  | typeMismatch
  | overlap
deriving DecidableEq

/-- The date sanity check of `clean`: both effective dates present and
start strictly after end. -/
def dOrderViolB (a : ContractAssignment) : Bool :=
  match a.effective_start_date, a.effective_end_date with
  | some s, some e => decide (e < s)
  | _, _ => false

/-- The SKU/contract type consistency check of `clean`: both FK rows set,
both contract types non-blank, and they differ. -/
def typeMismatchB (a : ContractAssignment) : Bool :=
  match a.contract, a.sku with
  | some c, some k =>
    match c.contract_type, k.contract_type with
    | some tc, some tk => decide (tc ≠ tk)
    | _, _ => false
  | _, _ => false

/-- Membership in the peer queryset
`ContractAssignment.objects.filter(asset=self.asset, sku=self.sku).exclude(pk=self.pk)`. -/
def peerB (a o : ContractAssignment) : Bool :=
  decide (o.pk ≠ a.pk) &&
  decide (o.asset = a.asset) &&
  decide (o.sku.map ContractSKU.sid = a.sku.map ContractSKU.sid)

/-- The overlap test of `clean` against one peer: the candidate start
(known to be resolvable at this point) against the peer period, with the
peer missing start clamped to `date.min` and open ends clamped to
`date.max`:  `start <= o_end and o_start <= this_end`. -/
def overlapB (a o : ContractAssignment) : Bool :=
  match a.effective_start_date with
  | none => false
  | some s =>
    decide (s ≤ o.effective_end_date.getD dateMaxV) &&
    decide (o.effective_start_date.getD dateMinV ≤ a.effective_end_date.getD dateMaxV)

/-- Existence of an overlapping peer in the database. -/
def hasOverlappingPeer (a : ContractAssignment) (db : List ContractAssignment) : Bool :=
  db.any (fun o => peerB a o && overlapB a o)

/-- `ContractAssignment.clean`, the overlap validator: skip when the
assignment has no asset or no SKU; reject ill-ordered dates; skip when the
effective start is unresolvable; reject SKU/contract type mismatch; reject
when any peer period overlaps.  (The auto-derivation of `program` performed
by the source at this point does not affect the validation outcome and is
omitted.) -/
def ContractAssignment.clean (a : ContractAssignment) (db : List ContractAssignment) :
    Except CleanError Unit :=
  if a.asset = none ∨ a.sku = none then Except.ok ()
  else if dOrderViolB a then Except.error CleanError.dateOrder
  else if a.effective_start_date = none then Except.ok ()
  else if typeMismatchB a then Except.error CleanError.typeMismatch
  else if hasOverlappingPeer a db then Except.error CleanError.overlap
  else Except.ok ()

/-- Saving an assignment: validate with `clean` against the current rows,
then insert (replacing any previous row with the same pk, which models an
edit).  Returns `none` when validation fails. -/
def saveAssignment (a : ContractAssignment) (db : List ContractAssignment) :
    Option (List ContractAssignment) :=
  match a.clean db with
  | Except.ok _ => some (a :: db.filter (fun o => decide (o.pk ≠ a.pk)))
  | Except.error _ => none

/-- Two assignment rows are on the same (asset, sku) key: both references
present and equal. -/
def sameKey (a b : ContractAssignment) : Prop :=
  a.asset.isSome ∧ a.sku.isSome ∧ a.asset = b.asset ∧
    a.sku.map ContractSKU.sid = b.sku.map ContractSKU.sid

instance (a b : ContractAssignment) : Decidable (sameKey a b) := by
  unfold sameKey; infer_instance

/-- The overlap relation of the specification, on effective fallback-resolved
dates, with a null effective end clamped to the maximal representable date
and a null effective start clamped to the minimal one:
`start <= other.end AND other.start <= end`. -/
def specOverlap (a b : ContractAssignment) : Prop :=
  a.effective_start_date.getD dateMinV ≤ b.effective_end_date.getD dateMaxV ∧
  b.effective_start_date.getD dateMinV ≤ a.effective_end_date.getD dateMaxV

instance (a b : ContractAssignment) : Decidable (specOverlap a b) := by
  unfold specOverlap; infer_instance

/-- The no-overlap invariant, restricted to pairs of rows whose effective
start dates are both resolvable. -/
def assignmentInvariant (db : List ContractAssignment) : Prop :=
  ∀ a ∈ db, ∀ b ∈ db, a.pk ≠ b.pk → sameKey a b →
    a.effective_start_date.isSome → b.effective_start_date.isSome → ¬ specOverlap a b

/-- `ProgramCoverageStatusChoices`. -/
inductive PCStatus
  | planned
  | active
  | excluded
  | terminated
deriving DecidableEq

/-- `ProgramEligibilityChoices`. -/
inductive PElig
  | unknown
  | eligible
  | ineligible
deriving DecidableEq

/-- `ProgramCoverageSourceChoices`. -/
inductive CovSource
  | manual
  | sync
  | importSrc
deriving DecidableEq

/-- `AssetSupportStateChoices` (values supported / unsupported / excluded /
unknown, constants named COVERED / UNCOVERED / EXCLUDED / UNKNOWN). -/
inductive SupportState
  | covered
  | uncovered
  | excluded
  | unknown
deriving DecidableEq

/-- `AssetSupportSourceChoices`. -/
inductive SupportSource
  | computed
  | manual
  | imported
  | api
deriving DecidableEq

/-- `AssetSupportReasonChoices.CONTRACT_MISSING`. -/
def CONTRACT_MISSING : String := "contract_missing"

/-- `VendorProgram`: the manufacturer FK id (nullable) and the contract
type (`none` when the CharField is blank). -/
structure VendorProgram where
  manufacturer : Option Nat
  contract_type : Option CType
deriving DecidableEq

/-- The fields of a `DeviceType` used by the eligibility evaluator: its id,
its manufacturer FK id, and the two custom fields read through
`custom_field_data` (`none` models a missing or null custom field value). -/
structure DeviceTypeRec where
  dtid : Nat
  manufacturer : Nat
  ea_eligible : Option Bool
  ea_exclusion_reason : Option String
deriving DecidableEq

/-- The fields of `Asset` used by the programs / reconciliation logic.
`support_reason` is `none` when the CharField is blank. -/
structure Asset where
  aid : Nat
  device_type : Option DeviceTypeRec
  support_state : SupportState
  support_reason : Option String
  support_source : SupportSource
  support_validated_at : Option PDate
deriving DecidableEq

/-- `_get_asset_manufacturer`: the manufacturer of the asset device type.
(The source falls back to `asset.device.device_type` when the asset has no
`device_type`; both resolution paths collapse into this option.) -/
def getAssetManufacturer (asset : Asset) : Option Nat :=
  asset.device_type.map DeviceTypeRec.manufacturer

/-- `AssetProgramCoverage`: the decision record for one (asset, program)
pair.  `asset` and `program` are dereferenced FK rows. -/
structure AssetProgramCoverage where
  cid : Nat
  asset : Asset
  program : VendorProgram
  status : PCStatus
  eligibility : PElig
  effective_start : Option PDate
  effective_end : Option PDate
  decision_reason : String
  source : CovSource
  last_synced : Option PDate
deriving DecidableEq

/-- Errors raised by the validators of `AssetProgramCoverage.clean`. -/
inductive CovError
  | dateSanity
  | guardrail
  | manufacturer
  | terminatedEnd
  | activeNoContract
deriving DecidableEq

/-- `_validate_date_sanity`: both dates set and end before start. -/
def covDateInsaneB (c : AssetProgramCoverage) : Bool :=
  match c.effective_start, c.effective_end with
  | some s, some e => decide (e < s)
  | _, _ => false

/-- `_validate_status_eligibility_guardrails`: ACTIVE requires ELIGIBLE,
TERMINATED requires INELIGIBLE, PLANNED/EXCLUDED must not be INELIGIBLE. -/
def guardrailViolB (c : AssetProgramCoverage) : Bool :=
  match c.status with
  | PCStatus.active => decide (c.eligibility ≠ PElig.eligible)
  | PCStatus.terminated => decide (c.eligibility ≠ PElig.ineligible)
  | PCStatus.planned => decide (c.eligibility = PElig.ineligible)
  | PCStatus.excluded => decide (c.eligibility = PElig.ineligible)

/-- `_validate_manufacturer_rules`: ACTIVE with a program manufacturer needs
a determinable asset manufacturer; determinable manufacturers must match. -/
def manufacturerViolB (c : AssetProgramCoverage) : Bool :=
  (decide (c.status = PCStatus.active) && c.program.manufacturer.isSome &&
    (getAssetManufacturer c.asset).isNone) ||
  (match c.program.manufacturer, getAssetManufacturer c.asset with
   | some p, some m => decide (p ≠ m)
   | _, _ => false)

/-- `_validate_terminated_requires_end_date`. -/
def terminatedEndViolB (c : AssetProgramCoverage) : Bool :=
  decide (c.status = PCStatus.terminated) && c.effective_end.isNone

/-- The candidate filter shared by `_validate_active_requires_matching_contract`
and `_has_current_matching_assignment`: assignments of the asset whose
contract type equals the program contract type, restricted to the program
manufacturer SKU when the program has one. -/
def matchesProgram (prog : VendorProgram) (assetId : Nat) (o : ContractAssignment) : Bool :=
  decide (o.asset = some assetId) &&
  (match o.contract with
   | some c => decide (c.contract_type = prog.contract_type)
   | none => false) &&
  (match prog.manufacturer with
   | some m =>
     match o.sku with
     | some k => decide (k.manufacturer = m)
     | none => false
   | none => true)

/-- An assignment is currently effective:
`a.effective_start_date and a.effective_start_date <= today <= (a.effective_end_date or date.max)`. -/
def isCurrentAssignment (today : PDate) (o : ContractAssignment) : Bool :=
  match o.effective_start_date with
  | none => false
  | some s => decide (s ≤ today) && decide (today ≤ o.effective_end_date.getD dateMaxV)

/-- `_has_current_matching_assignment` (signals.py), also the body of
`_validate_active_requires_matching_contract` (programs.py). -/
def hasCurrentMatchingAssignment (db : List ContractAssignment) (assetId : Nat)
    (prog : VendorProgram) (today : PDate) : Bool :=
  db.any (fun o => matchesProgram prog assetId o && isCurrentAssignment today o)

/-- `_validate_active_requires_matching_contract`: an ACTIVE row needs a
current matching assignment. -/
def activeContractViolB (c : AssetProgramCoverage) (db : List ContractAssignment)
    (today : PDate) : Bool :=
  decide (c.status = PCStatus.active) &&
    !(hasCurrentMatchingAssignment db c.asset.aid c.program today)

/-- `AssetProgramCoverage.clean`: the validator chain in source order;
the first failing validator reports its error. -/
def AssetProgramCoverage.clean (c : AssetProgramCoverage) (db : List ContractAssignment)
    (today : PDate) : Except CovError Unit :=
  if covDateInsaneB c then Except.error CovError.dateSanity
  else if guardrailViolB c then Except.error CovError.guardrail
  else if manufacturerViolB c then Except.error CovError.manufacturer
  else if terminatedEndViolB c then Except.error CovError.terminatedEnd
  else if activeContractViolB c db today then Except.error CovError.activeNoContract
  else Except.ok ()

/-- One step of `_reconcile_coverages_for_asset` (signals.py): an ACTIVE
coverage without a current matching assignment is downgraded to
PLANNED/UNKNOWN, closing an open effective period (start set, end unset) at
today; everything else is left unwritten.  The Bool flags whether the row
was saved. -/
def reconcileCoverage (db : List ContractAssignment) (today : PDate)
    (c : AssetProgramCoverage) : AssetProgramCoverage × Bool :=
  if c.status = PCStatus.active then
    if hasCurrentMatchingAssignment db c.asset.aid c.program today then (c, false)
    else
      ({c with
          status := PCStatus.planned,
          eligibility := PElig.unknown,
          effective_end :=
            if c.effective_start.isSome && c.effective_end.isNone then some today
            else c.effective_end},
        true)
  else (c, false)

/-- `_reconcile_coverages_for_asset` over the asset coverage rows, keeping
the per-row written flag. -/
def reconcileCoveragesForAsset (db : List ContractAssignment) (today : PDate)
    (covs : List AssetProgramCoverage) : List (AssetProgramCoverage × Bool) :=
  covs.map (reconcileCoverage db today)

/-- `_assignment_is_active` (signals.py): raw `start_date` / `end_date`
fields, a null date treated as open-ended on that side. -/
def assignmentIsActive (a : ContractAssignment) (today : PDate) : Bool :=
  !(match a.start_date with | some s => decide (today < s) | none => false) &&
  !(match a.end_date with | some e => decide (e < today) | none => false)

/-- `_has_any_active_assignment`: any assignment of the asset active per the
raw-date test. -/
def hasAnyActiveAssignment (db : List ContractAssignment) (assetId : Nat)
    (today : PDate) : Bool :=
  (db.filter (fun o => decide (o.asset = some assetId))).any
    (fun a => assignmentIsActive a today)

/-- `_reconcile_asset_support` (signals.py).  EXCLUDED is sticky: only
`support_validated_at` / `support_source` are refreshed.  Otherwise the state
becomes COVERED (reason cleared) or UNCOVERED (reason kept, defaulting to
CONTRACT_MISSING), source becomes COMPUTED and the validation date is
stamped.  The Bool flags whether any field changed (i.e. a save happened). -/
def reconcileAssetSupport (db : List ContractAssignment) (today : PDate)
    (asset : Asset) : Asset × Bool :=
  let has_active := hasAnyActiveAssignment db asset.aid today
  if asset.support_state = SupportState.excluded then
    ({asset with
        support_validated_at := some today,
        support_source := SupportSource.computed},
      decide (asset.support_validated_at ≠ some today) ||
        decide (asset.support_source ≠ SupportSource.computed))
  else
    let new_state := if has_active then SupportState.covered else SupportState.uncovered
    let new_reason : Option String :=
      if has_active then none else some (asset.support_reason.getD CONTRACT_MISSING)
    ({asset with
        support_state := new_state,
        support_reason := new_reason,
        support_source := SupportSource.computed,
        support_validated_at := some today},
      decide (asset.support_state ≠ new_state) ||
        decide (asset.support_reason ≠ new_reason) ||
        decide (asset.support_source ≠ SupportSource.computed) ||
        decide (asset.support_validated_at ≠ some today))

/-- `_reconcile_all_for_asset`: the coverage downgrade pass followed by the
asset support recompute, with the total number of row writes. -/
def reconcileAllForAsset (db : List ContractAssignment) (today : PDate)
    (covs : List AssetProgramCoverage) (asset : Asset) :
    (List AssetProgramCoverage × Asset) × Nat :=
  let rcs := reconcileCoveragesForAsset db today covs
  let ra := reconcileAssetSupport db today asset
  ((rcs.map Prod.fst, ra.1),
    (rcs.filter Prod.snd).length + (if ra.2 then 1 else 0))

/-- `HardwareLifecycle`: only its `end_of_support` date matters to the
evaluator. -/
structure HardwareLifecycle where
  end_of_support : Option PDate
deriving DecidableEq

/-- The result record of `evaluate_asset` (the `Eval` dataclass). -/
structure EvalResult where
  eligibility : PElig
  reason : String
  eos : Option PDate
deriving DecidableEq

/-- `evaluate_asset` (cisco_assets_to_ea_ledger.py).  `lifecycleOf` models
the `_get_dt_lifecycle` lookup (the first HardwareLifecycle row attached to
the device type, if any).  The evaluator is a pure function. -/
def evaluate_asset (lifecycleOf : Nat → Option HardwareLifecycle) (today : PDate)
    (asset : Asset) : EvalResult :=
  match asset.device_type with
  | none =>
    ⟨PElig.unknown, "No DeviceType on Asset (cannot evaluate)", none⟩
  | some dt =>
    if !(dt.ea_eligible.getD false) then
      let txt := (dt.ea_exclusion_reason.getD "").trim
      let reason := if txt = "" then "DeviceType excluded from EA" else txt
      ⟨PElig.ineligible, "DeviceType excluded: " ++ reason, none⟩
    else
      match lifecycleOf dt.dtid with
      | none =>
        ⟨PElig.eligible, "No HardwareLifecycle record (assumed supported)", none⟩
      | some lc =>
        match lc.end_of_support with
        | none =>
          ⟨PElig.eligible, "HardwareLifecycle missing end_of_support (assumed supported)", none⟩
        | some eos =>
          if eos ≤ today then
            ⟨PElig.ineligible, "Past End of Support (EOS: " ++ toString eos ++ ")", some eos⟩
          else
            ⟨PElig.eligible, "Supported until " ++ toString eos, some eos⟩

/-- Errors raised by `AssetProgramCoverageActivateView._activate`. -/
inductive ActError
  | ineligibleCov
  | mfrUndeterminable
  | mfrMismatch
  | contractTypeMismatch
  | skuMfrMismatch
  | skuTypeMismatch
  | assignmentInvalid (e : CleanError)
  | coverageInvalid (e : CovError)
deriving DecidableEq

/-- `AssetProgramCoverageActivateView._activate` (views/programs.py): policy
checks in source order, then create/validate the ContractAssignment, then
flip the coverage to ACTIVE and validate it.  The result carries the error
(if any), the assignment rows after the call, and the coverage row as
persisted after the call; note that when the coverage validation fails the
assignment has already been saved. -/
def activateCoverage (today : PDate) (db : List ContractAssignment) (newPk : Nat)
    (cov : AssetProgramCoverage) (contract : Contract) (sku : ContractSKU)
    (start_dateIn end_dateIn : Option PDate) :
    Option ActError × List ContractAssignment × AssetProgramCoverage :=
  if cov.eligibility = PElig.ineligible then (some ActError.ineligibleCov, db, cov)
  else if cov.program.manufacturer.isSome && (getAssetManufacturer cov.asset).isNone then
    (some ActError.mfrUndeterminable, db, cov)
  else if (match cov.program.manufacturer, getAssetManufacturer cov.asset with
           | some p, some m => decide (p ≠ m)
           | _, _ => false) then
    (some ActError.mfrMismatch, db, cov)
  else
    let start := start_dateIn.getD today
    if (match cov.program.contract_type with
        | some t => decide (contract.contract_type ≠ some t)
        | none => false) then
      (some ActError.contractTypeMismatch, db, cov)
    else if (match cov.program.manufacturer with
             | some m => decide (sku.manufacturer ≠ m)
             | none => false) then
      (some ActError.skuMfrMismatch, db, cov)
    else if (match cov.program.contract_type with
             | some t => decide (sku.contract_type ≠ some t)
             | none => false) then
      (some ActError.skuTypeMismatch, db, cov)
    else
      let assignment : ContractAssignment :=
        ⟨newPk, some contract, some sku, some cov.asset.aid, some start, end_dateIn⟩
      match assignment.clean db with
      | Except.error e => (some (ActError.assignmentInvalid e), db, cov)
      | Except.ok _ =>
        let db2 := assignment :: db
        let cov2 := {cov with
          status := PCStatus.active,
          effective_start :=
            if cov.effective_start.isNone then some start else cov.effective_start,
          effective_end := none}
        match cov2.clean db2 today with
        | Except.error e => (some (ActError.coverageInvalid e), db2, cov)
        | Except.ok _ => (none, db2, cov2)

/-- `AssetStatusChoices`. -/
inductive AStatus
  | stored
  | used
  | inTransit
  | disposed
  | retired
deriving DecidableEq

/-- `AssetAllocationStatusChoices` (the field itself is nullable). -/
inductive AllocStatus
  | unallocated
  | allocated
  | consumed
deriving DecidableEq

/-- The fields of `Asset` used by `update_allocation_status`: status,
allocation status, and the four installed-hardware FK ids. -/
structure AssetHW where
  status : AStatus
  allocation_status : Option AllocStatus
  device : Option Nat
  moduleRef : Option Nat
  inventoryitem : Option Nat
  rack : Option Nat
deriving DecidableEq

/-- `Asset.update_allocation_status` (models/assets.py), run by both
`Asset.clean` and `Asset.save`: assigned to a device while status is used
forces consumed; without a device, a used asset with the default
unallocated value is normalised to null. -/
def update_allocation_status (a : AssetHW) : AssetHW :=
  if a.device.isSome ∧ a.status = AStatus.used then
    {a with allocation_status := some AllocStatus.consumed}
  else if a.device.isNone ∧ a.status = AStatus.used ∧
      a.allocation_status = some AllocStatus.unallocated then
    {a with allocation_status := none}
  else a

/-- Per-row outcome of the batch sync, matching its counters. -/
inductive SyncOutcome
  | unchangedRow
  | updatedRow
  | failedRow
deriving DecidableEq

/-- The `desired_reason` computed by the sync body (truncated to the
100-char field limit). -/
def syncDesiredReason (r : EvalResult) : String := r.reason.take 100

/-- The `changed` flag accumulated by the eligibility / reason / source
comparisons of the sync body. -/
def syncChanged0 (cov : AssetProgramCoverage) (r : EvalResult) : Bool :=
  decide (cov.eligibility ≠ r.eligibility) ||
  decide (cov.decision_reason ≠ syncDesiredReason r) ||
  decide (cov.source ≠ CovSource.sync)

/-- The coverage row after the eligibility / reason / source assignments and
the unconditional `last_synced` stamp of the sync body. -/
def syncC4 (now : PDate) (cov : AssetProgramCoverage) (r : EvalResult) :
    AssetProgramCoverage :=
  {cov with
    eligibility := r.eligibility,
    decision_reason := syncDesiredReason r,
    source := CovSource.sync,
    last_synced := some now}

/-- The "status enforcement" block of the sync body for an ineligible
verdict: an active row is terminated (closing its end from the current end,
the end-of-support date or today); a row that is neither excluded nor
terminated is set excluded; both set the changed flag. -/
def syncEnforceStatus (today : PDate) (cov : AssetProgramCoverage) (r : EvalResult)
    (c4 : AssetProgramCoverage) (changed0 : Bool) : AssetProgramCoverage × Bool :=
  if r.eligibility = PElig.ineligible then
    if cov.status = PCStatus.active then
      ({c4 with
          status := PCStatus.terminated,
          effective_end := some (((cov.effective_end).orElse (fun _ => r.eos)).getD today)},
        true)
    else if cov.status ≠ PCStatus.excluded ∧ cov.status ≠ PCStatus.terminated then
      ({c4 with status := PCStatus.excluded}, true)
    else (c4, changed0)
  else (c4, changed0)

/-- The tail of the sync body: an unchanged row is counted unchanged; a
changed row is validated and saved, a validation failure reverting status,
eligibility, decision_reason and effective_end in memory and counting the
row as failed. -/
def syncFinalize (db : List ContractAssignment) (today : PDate)
    (cov : AssetProgramCoverage) (step : AssetProgramCoverage × Bool) :
    AssetProgramCoverage × SyncOutcome :=
  if step.2 = false then (step.1, SyncOutcome.unchangedRow)
  else
    match step.1.clean db today with
    | Except.error _ =>
      ({step.1 with
          status := cov.status,
          eligibility := cov.eligibility,
          decision_reason := cov.decision_reason,
          effective_end := cov.effective_end},
        SyncOutcome.failedRow)
    | Except.ok _ => (step.1, SyncOutcome.updatedRow)

/-- The per-asset body of `SyncCiscoAssetsToEALedger.run` for an existing
current coverage row with `update_existing` enabled: recompute eligibility,
reason, source and sync time, enforce the status policy for an ineligible
verdict, and when anything changed validate and save; a validation failure
is counted as failed and the status / eligibility / decision_reason /
effective_end changes are reverted in memory (source and last_synced are
not reverted).  Returns the in-memory row and the outcome counter it adds
to. -/
def syncExistingCoverage (lifecycleOf : Nat → Option HardwareLifecycle)
    (today now : PDate) (db : List ContractAssignment)
    (cov : AssetProgramCoverage) : AssetProgramCoverage × SyncOutcome :=
  syncFinalize db today cov
    (syncEnforceStatus today cov (evaluate_asset lifecycleOf today cov.asset)
      (syncC4 now cov (evaluate_asset lifecycleOf today cov.asset))
      (syncChanged0 cov (evaluate_asset lifecycleOf today cov.asset)))

/-- The sync loop over a batch of existing current rows: each row is
processed independently. -/
def runSyncBatch (lifecycleOf : Nat → Option HardwareLifecycle) (today now : PDate)
    (db : List ContractAssignment) (batch : List AssetProgramCoverage) :
    List (AssetProgramCoverage × SyncOutcome) :=
  batch.map (syncExistingCoverage lifecycleOf today now db)

/-- The `failed` counter of the sync run. -/
def failedCount (rs : List (AssetProgramCoverage × SyncOutcome)) : Nat :=
  rs.countP (fun p => decide (p.2 = SyncOutcome.failedRow))

/-! Concrete records used by witnesses and counterexamples. -/

/-- An asset with no device type and untouched support fields. -/
def assetPlain : Asset :=
  ⟨1, none, SupportState.unknown, none, SupportSource.manual, none⟩

/-- A program with no manufacturer restriction. -/
def progPlain : VendorProgram := ⟨none, some CType.supportEA⟩

/-- A freshly planned coverage row that passes validation. -/
def covPlain : AssetProgramCoverage :=
  ⟨1, assetPlain, progPlain, PCStatus.planned, PElig.unknown, none, none, "",
    CovSource.manual, none⟩

/-- A support-ea SKU of manufacturer 10. -/
def skuEA : ContractSKU := ⟨1, 10, some CType.supportEA⟩

/-- An assignment with an explicit start and an open end. -/
def asg1 : ContractAssignment := ⟨1, none, some skuEA, some 1, some 20250101, none⟩

/-- An assignment on the same (asset, sku) key with an unresolvable
effective start (no start date and no contract). -/
def asg2 : ContractAssignment := ⟨2, none, some skuEA, some 1, none, none⟩

/-- The empty lifecycle lookup (no HardwareLifecycle rows). -/
def lifecycleNone : Nat → Option HardwareLifecycle := fun _ => none

/-! Helper lemmas shared between claims. -/

/-- A coverage row accepted by `clean` passed the guard-rail and the
terminated-end validators. -/
theorem clean_ok_guardrail (c : AssetProgramCoverage) (db : List ContractAssignment)
    (today : PDate) (h : c.clean db today = Except.ok ()) :
    guardrailViolB c = false ∧ terminatedEndViolB c = false := by
  unfold AssetProgramCoverage.clean at h
  split_ifs at h
  simp_all

/-- The pairwise overlap relation of the specification is symmetric. -/
theorem specOverlap_comm (a b : ContractAssignment) : specOverlap a b ↔ specOverlap b a :=
  And.comm

/-- The per-peer overlap test of `clean` agrees with the specification
relation once the candidate effective start is resolved. -/
theorem overlapB_eq_specOverlap (a o : ContractAssignment) (s : PDate)
    (h : a.effective_start_date = some s) :
    overlapB a o = true ↔ specOverlap a o := by
  unfold overlapB specOverlap
  rw [h]
  simp [Option.getD]

/-- An assignment accepted by `clean` that has an asset, a SKU and a
resolvable effective start has no overlapping peer. -/
theorem clean_ok_no_overlapping_peer (a : ContractAssignment)
    (db : List ContractAssignment) (hok : a.clean db = Except.ok ())
    (ha : ¬ a.asset = none) (hk : ¬ a.sku = none)
    (hs : ¬ a.effective_start_date = none) :
    hasOverlappingPeer a db = false := by
  unfold ContractAssignment.clean at hok
  split_ifs at hok with g1 g2 g3 g4
  · exact (g1.elim ha hk).elim
  · exact Bool.eq_false_iff.mpr g4

/-- C3: every AssetProgramCoverage row that passes validation satisfies the
guard-rail matrix: active implies eligible; terminated implies ineligible
with a non-null effective_end; planned and excluded imply eligibility in
eligible/unknown; equivalently ineligible implies terminated. -/
theorem coverage_clean_guardrail_matrix (c : AssetProgramCoverage)
    (db : List ContractAssignment) (today : PDate)
    (h : c.clean db today = Except.ok ()) :
    (c.status = PCStatus.active → c.eligibility = PElig.eligible) ∧
    (c.status = PCStatus.terminated →
      c.eligibility = PElig.ineligible ∧ c.effective_end.isSome = true) ∧
    ((c.status = PCStatus.planned ∨ c.status = PCStatus.excluded) →
      (c.eligibility = PElig.eligible ∨ c.eligibility = PElig.unknown)) ∧
    (c.eligibility = PElig.ineligible → c.status = PCStatus.terminated) := by
  obtain ⟨hg, ht⟩ := clean_ok_guardrail c db today h
  obtain ⟨cid, asset, prog, st, el, es, ee, dr, src, ls⟩ := c
  cases st <;> cases el <;>
    simp_all [guardrailViolB, terminatedEndViolB, Option.isNone_iff_eq_none,
      Option.isSome_iff_ne_none]

/-- C3 witness: a planned/unknown row with no dates passes validation and
satisfies the matrix. -/
theorem coverage_clean_guardrail_matrix_witness :
    (covPlain.status = PCStatus.active → covPlain.eligibility = PElig.eligible) ∧
    (covPlain.status = PCStatus.terminated →
      covPlain.eligibility = PElig.ineligible ∧ covPlain.effective_end.isSome = true) ∧
    ((covPlain.status = PCStatus.planned ∨ covPlain.status = PCStatus.excluded) →
      (covPlain.eligibility = PElig.eligible ∨ covPlain.eligibility = PElig.unknown)) ∧
    (covPlain.eligibility = PElig.ineligible → covPlain.status = PCStatus.terminated) :=
  coverage_clean_guardrail_matrix covPlain [] 100 (by rfl)

/-- C9 counterexample: a module-kind asset in use with its module installed
is not forced to allocation_status consumed (only a device reference
triggers the rule). -/
def assetModuleUsed : AssetHW :=
  ⟨AStatus.used, some AllocStatus.allocated, none, some 5, none, none⟩

/-- C9 counterexample: status used with an installed module, yet the
allocation status stays allocated after `update_allocation_status`. -/
theorem update_allocation_status_module_not_consumed :
    assetModuleUsed.status = AStatus.used ∧
    assetModuleUsed.moduleRef.isSome = true ∧
    (update_allocation_status assetModuleUsed).allocation_status =
      some AllocStatus.allocated ∧
    (update_allocation_status assetModuleUsed).allocation_status ≠
      some AllocStatus.consumed := by
  decide

/-- C9 (amended): whenever status is used and a device reference is
present, `update_allocation_status` forces allocation_status to consumed. -/
theorem update_allocation_status_device_consumed (a : AssetHW)
    (h1 : a.status = AStatus.used) (h2 : a.device.isSome = true) :
    (update_allocation_status a).allocation_status = some AllocStatus.consumed := by
  unfold update_allocation_status
  rw [if_pos ⟨h2, h1⟩]

/-- C9 witness: a used asset installed as device 3 ends up consumed. -/
theorem update_allocation_status_device_consumed_witness :
    (update_allocation_status
        ⟨AStatus.used, none, some 3, none, none, none⟩).allocation_status =
      some AllocStatus.consumed :=
  update_allocation_status_device_consumed _ rfl rfl

/-- C4 counterexample data: an active coverage row with no effective dates
at all (open-ended, but with no effective_start either). -/
def covActiveOpen : AssetProgramCoverage :=
  ⟨2, assetPlain, progPlain, PCStatus.active, PElig.eligible, none, none, "",
    CovSource.manual, none⟩

/-- C4 counterexample: an unmatched active coverage whose effective_start is
null is open-ended, yet the downgrade leaves effective_end null instead of
closing it at the reconciliation date. -/
theorem reconcile_open_start_not_closed :
    covActiveOpen.status = PCStatus.active ∧
    hasCurrentMatchingAssignment [] covActiveOpen.asset.aid covActiveOpen.program 200 =
      false ∧
    covActiveOpen.effective_end = none ∧
    (reconcileCoverage [] 200 covActiveOpen).1.status = PCStatus.planned ∧
    (reconcileCoverage [] 200 covActiveOpen).1.effective_end ≠ some 200 := by
  decide

/-- C4 (amended): the reconciliation pass downgrades an unmatched active
coverage to planned/unknown, closing the effective period at the
reconciliation date exactly when effective_start was set and effective_end
was null, and leaves matched active rows untouched. -/
theorem reconcile_coverage_downgrade (db : List ContractAssignment) (today : PDate)
    (c : AssetProgramCoverage) (hact : c.status = PCStatus.active) :
    (hasCurrentMatchingAssignment db c.asset.aid c.program today = false →
      (reconcileCoverage db today c).1.status = PCStatus.planned ∧
      (reconcileCoverage db today c).1.eligibility = PElig.unknown ∧
      (c.effective_start.isSome = true → c.effective_end = none →
        (reconcileCoverage db today c).1.effective_end = some today) ∧
      (c.effective_end.isSome = true →
        (reconcileCoverage db today c).1.effective_end = c.effective_end) ∧
      (c.effective_start = none →
        (reconcileCoverage db today c).1.effective_end = c.effective_end) ∧
      (reconcileCoverage db today c).2 = true) ∧
    (hasCurrentMatchingAssignment db c.asset.aid c.program today = true →
      reconcileCoverage db today c = (c, false)) := by
  constructor
  · intro hm
    have hdown : reconcileCoverage db today c =
        ({c with
            status := PCStatus.planned,
            eligibility := PElig.unknown,
            effective_end :=
              if c.effective_start.isSome && c.effective_end.isNone then some today
              else c.effective_end},
          true) := by
      simp [reconcileCoverage, hact, hm]
    rw [hdown]
    refine ⟨rfl, rfl, ?_, ?_, ?_, rfl⟩
    · intro h1 h2
      simp [h1, h2]
    · intro h1
      obtain ⟨v, hv⟩ := Option.isSome_iff_exists.mp h1
      simp [hv]
    · intro h1
      simp [h1]
  · intro hm
    simp [reconcileCoverage, hact, hm]

/-- C4 witness: the concrete unmatched active row is downgraded with the
write flag set. -/
theorem reconcile_coverage_downgrade_witness :
    (hasCurrentMatchingAssignment [] covActiveOpen.asset.aid covActiveOpen.program 200 =
        false →
      (reconcileCoverage [] 200 covActiveOpen).1.status = PCStatus.planned ∧
      (reconcileCoverage [] 200 covActiveOpen).1.eligibility = PElig.unknown ∧
      (covActiveOpen.effective_start.isSome = true → covActiveOpen.effective_end = none →
        (reconcileCoverage [] 200 covActiveOpen).1.effective_end = some 200) ∧
      (covActiveOpen.effective_end.isSome = true →
        (reconcileCoverage [] 200 covActiveOpen).1.effective_end =
          covActiveOpen.effective_end) ∧
      (covActiveOpen.effective_start = none →
        (reconcileCoverage [] 200 covActiveOpen).1.effective_end =
          covActiveOpen.effective_end) ∧
      (reconcileCoverage [] 200 covActiveOpen).2 = true) ∧
    (hasCurrentMatchingAssignment [] covActiveOpen.asset.aid covActiveOpen.program 200 =
        true →
      reconcileCoverage [] 200 covActiveOpen = (covActiveOpen, false)) :=
  reconcile_coverage_downgrade [] 200 covActiveOpen (by rfl)

/-- C8 counterexample data: an assignment with no raw dates whose contract
only starts at date 300. -/
def cx8contract : Contract := ⟨some CType.warranty, some 300, none⟩

/-- C8 counterexample data: assignment of asset 1 with null raw dates. -/
def cx8assignment : ContractAssignment := ⟨9, some cx8contract, none, some 1, none, none⟩

/-- C8 counterexample data: a non-excluded asset. -/
def cx8asset : Asset := ⟨1, none, SupportState.uncovered, none, SupportSource.computed, none⟩

/-- C8 counterexample: at day 100 no assignment of the asset is currently
effective (its effective start is 300), yet the support recompute marks the
asset supported, because `_has_any_active_assignment` reads the raw
start/end fields and treats a null start as open. -/
theorem reconcile_support_raw_dates :
    ([cx8assignment].any (fun o => isCurrentAssignment 100 o)) = false ∧
    cx8asset.support_state ≠ SupportState.excluded ∧
    (reconcileAssetSupport [cx8assignment] 100 cx8asset).1.support_state =
      SupportState.covered := by
  decide

/-- C8 (amended): the support recompute marks the asset supported exactly
when some assignment of the asset is active on its raw start/end dates
(null sides open, no contract fallback), else unsupported with the reason
defaulting to contract_missing only when no prior reason exists; an
excluded asset stays excluded with only source and validation date
refreshed. -/
theorem reconcile_asset_support_spec (db : List ContractAssignment) (today : PDate)
    (asset : Asset) :
    (asset.support_state = SupportState.excluded →
      (reconcileAssetSupport db today asset).1.support_state = SupportState.excluded ∧
      (reconcileAssetSupport db today asset).1.support_reason = asset.support_reason ∧
      (reconcileAssetSupport db today asset).1.support_source = SupportSource.computed ∧
      (reconcileAssetSupport db today asset).1.support_validated_at = some today) ∧
    (asset.support_state ≠ SupportState.excluded →
      (hasAnyActiveAssignment db asset.aid today = true →
        (reconcileAssetSupport db today asset).1.support_state = SupportState.covered ∧
        (reconcileAssetSupport db today asset).1.support_reason = none) ∧
      (hasAnyActiveAssignment db asset.aid today = false →
        (reconcileAssetSupport db today asset).1.support_state = SupportState.uncovered ∧
        (asset.support_reason = none →
          (reconcileAssetSupport db today asset).1.support_reason =
            some CONTRACT_MISSING) ∧
        (∀ s, asset.support_reason = some s →
          (reconcileAssetSupport db today asset).1.support_reason = some s))) := by
  constructor
  · intro hex
    simp [reconcileAssetSupport, hex]
  · intro hex
    constructor
    · intro hact
      simp [reconcileAssetSupport, hex, hact]
    · intro hact
      refine ⟨?_, ?_, ?_⟩
      · simp [reconcileAssetSupport, hex, hact]
      · intro hr
        simp [reconcileAssetSupport, hex, hact, hr, CONTRACT_MISSING]
      · intro s hr
        simp [reconcileAssetSupport, hex, hact, hr]

/-- C8 witness: an excluded asset keeps its state and reason while source
and validation date are stamped. -/
theorem reconcile_asset_support_spec_witness :
    (reconcileAssetSupport [] 100
        ⟨2, none, SupportState.excluded, some "lab", SupportSource.manual, none⟩).1.support_state =
      SupportState.excluded ∧
    (reconcileAssetSupport [] 100
        ⟨2, none, SupportState.excluded, some "lab", SupportSource.manual, none⟩).1.support_reason =
      some "lab" ∧
    (reconcileAssetSupport [] 100
        ⟨2, none, SupportState.excluded, some "lab", SupportSource.manual, none⟩).1.support_source =
      SupportSource.computed ∧
    (reconcileAssetSupport [] 100
        ⟨2, none, SupportState.excluded, some "lab", SupportSource.manual, none⟩).1.support_validated_at =
      some 100 :=
  (reconcile_asset_support_spec [] 100
      ⟨2, none, SupportState.excluded, some "lab", SupportSource.manual, none⟩).1 rfl

/-- C5: the eligibility evaluator applies its policy in order: no resolvable
device type yields unknown; a device type that is not EA-eligible yields
ineligible with the exclusion text (or the generic fallback) in the reason;
an EA-eligible type with no lifecycle record, or a lifecycle record with no
end_of_support, yields eligible; otherwise end_of_support on or before today
yields ineligible and a later end_of_support yields eligible, with the date
in the reason.  The evaluator is a pure function of its inputs. -/
theorem evaluate_asset_policy (lifecycleOf : Nat → Option HardwareLifecycle)
    (today : PDate) (asset : Asset) :
    (asset.device_type = none →
      evaluate_asset lifecycleOf today asset =
        ⟨PElig.unknown, "No DeviceType on Asset (cannot evaluate)", none⟩) ∧
    (∀ dt, asset.device_type = some dt →
      (dt.ea_eligible.getD false = false →
        evaluate_asset lifecycleOf today asset =
          ⟨PElig.ineligible,
            "DeviceType excluded: " ++
              (if (dt.ea_exclusion_reason.getD "").trim = "" then
                "DeviceType excluded from EA"
               else (dt.ea_exclusion_reason.getD "").trim),
            none⟩) ∧
      (dt.ea_eligible.getD false = true →
        (lifecycleOf dt.dtid = none →
          evaluate_asset lifecycleOf today asset =
            ⟨PElig.eligible, "No HardwareLifecycle record (assumed supported)", none⟩) ∧
        (∀ lc, lifecycleOf dt.dtid = some lc →
          (lc.end_of_support = none →
            evaluate_asset lifecycleOf today asset =
              ⟨PElig.eligible,
                "HardwareLifecycle missing end_of_support (assumed supported)", none⟩) ∧
          (∀ eos, lc.end_of_support = some eos →
            (eos ≤ today →
              evaluate_asset lifecycleOf today asset =
                ⟨PElig.ineligible,
                  "Past End of Support (EOS: " ++ toString eos ++ ")", some eos⟩) ∧
            (today < eos →
              evaluate_asset lifecycleOf today asset =
                ⟨PElig.eligible, "Supported until " ++ toString eos, some eos⟩))))) := by
  refine ⟨?_, ?_⟩
  · intro h
    simp [evaluate_asset, h]
  · intro dt hdt
    refine ⟨?_, ?_⟩
    · intro hflag
      simp [evaluate_asset, hdt, hflag]
    · intro hflag
      refine ⟨?_, ?_⟩
      · intro hlc
        simp [evaluate_asset, hdt, hflag, hlc]
      · intro lc hlc
        refine ⟨?_, ?_⟩
        · intro heos
          simp [evaluate_asset, hdt, hflag, hlc, heos]
        · intro eos heos
          constructor
          · intro hle
            simp [evaluate_asset, hdt, hflag, hlc, heos, hle]
          · intro hgt
            simp [evaluate_asset, hdt, hflag, hlc, heos, not_le.mpr hgt]

/-- C5 witness: an asset with no device type evaluates to unknown. -/
theorem evaluate_asset_policy_witness :
    evaluate_asset lifecycleNone 100 assetPlain =
      ⟨PElig.unknown, "No DeviceType on Asset (cannot evaluate)", none⟩ :=
  (evaluate_asset_policy lifecycleNone 100 assetPlain).1 rfl

/-- The same-key relation is symmetric. -/
theorem sameKey_symm {a b : ContractAssignment} (h : sameKey a b) : sameKey b a := by
  obtain ⟨h1, h2, h3, h4⟩ := h
  refine ⟨?_, ?_, h3.symm, h4.symm⟩
  · rw [← h3]
    exact h1
  · cases hbk : b.sku with
    | some k => simp
    | none =>
      rw [hbk] at h4
      cases hak : a.sku with
      | some k0 =>
        rw [hak] at h4
        simp at h4
      | none =>
        rw [hak] at h2
        simp at h2

/-- A candidate accepted by `clean` does not spec-overlap any same-key peer
in the database, provided its own effective start is resolvable. -/
theorem clean_ok_not_specOverlap (a y : ContractAssignment)
    (db : List ContractAssignment) (hok : a.clean db = Except.ok ())
    (hyd : y ∈ db) (hypk : y.pk ≠ a.pk) (hkey : sameKey a y)
    (hxs : a.effective_start_date.isSome = true) : ¬ specOverlap a y := by
  obtain ⟨hA, hK, hae, hke⟩ := hkey
  have ha : ¬ a.asset = none := by
    simp only [Option.isSome_iff_ne_none] at hA
    exact hA
  have hk : ¬ a.sku = none := by
    simp only [Option.isSome_iff_ne_none] at hK
    exact hK
  obtain ⟨s, hsd⟩ := Option.isSome_iff_exists.mp hxs
  have hno := clean_ok_no_overlapping_peer a db hok ha hk (by simp [hsd])
  have hall : ∀ o ∈ db, ¬ (peerB a o && overlapB a o) = true := by
    intro o ho hcontra
    have : hasOverlappingPeer a db = true := by
      unfold hasOverlappingPeer
      exact List.any_eq_true.mpr ⟨o, ho, hcontra⟩
    rw [hno] at this
    exact Bool.false_ne_true this
  intro hov
  have hpeer : peerB a y = true := by
    unfold peerB
    simp [hypk, hae.symm, hke.symm]
  have hovB : overlapB a y = true := (overlapB_eq_specOverlap a y s hsd).mpr hov
  exact hall y hyd (by simp [hpeer, hovB])

/-- C1 counterexample: from the empty database, saving an assignment with
start 2025-01-01 and then an open-ended assignment on the same (asset, sku)
key with an unresolvable effective start both succeed, yet the resulting
pair overlaps under the claim resolution (null end maximal, null start
minimal): the invariant does not cover saves with unresolvable starts. -/
theorem save_open_start_breaks_invariant :
    saveAssignment asg1 [] = some [asg1] ∧
    saveAssignment asg2 [asg1] = some [asg2, asg1] ∧
    asg1.pk ≠ asg2.pk ∧ sameKey asg1 asg2 ∧ specOverlap asg1 asg2 := by
  decide

/-- C1 (amended): every successful save preserves the no-overlap invariant
restricted to pairs of same-key assignments whose effective starts are both
resolvable. -/
theorem save_preserves_assignment_invariant (a : ContractAssignment)
    (db db' : List ContractAssignment) (hinv : assignmentInvariant db)
    (hs : saveAssignment a db = some db') : assignmentInvariant db' := by
  have hsplit : a.clean db = Except.ok () ∧
      db' = a :: db.filter (fun o => decide (o.pk ≠ a.pk)) := by
    unfold saveAssignment at hs
    cases hc : a.clean db with
    | ok u =>
      cases u
      rw [hc] at hs
      exact ⟨rfl, by simpa using hs.symm⟩
    | error e =>
      rw [hc] at hs
      simp at hs
  obtain ⟨hok, rfl⟩ := hsplit
  intro x hx y hy hpk hkey hxs hys hov
  rcases List.mem_cons.mp hx with rfl | hx'
  · rcases List.mem_cons.mp hy with rfl | hy'
    · exact hpk rfl
    · have hyd : y ∈ db := List.mem_of_mem_filter hy'
      have hypk : y.pk ≠ x.pk := by
        have := (List.mem_filter.mp hy').2
        simpa using this
      exact clean_ok_not_specOverlap x y db hok hyd hypk hkey hxs hov
  · rcases List.mem_cons.mp hy with rfl | hy'
    · have hxd : x ∈ db := List.mem_of_mem_filter hx'
      have hxpk : x.pk ≠ y.pk := by
        have := (List.mem_filter.mp hx').2
        simpa using this
      exact clean_ok_not_specOverlap y x db hok hxd hxpk (sameKey_symm hkey) hys
        ((specOverlap_comm x y).mp hov)
    · exact hinv x (List.mem_of_mem_filter hx') y (List.mem_of_mem_filter hy') hpk hkey
        hxs hys hov

/-- C1 witness: saving the dated assignment into the empty database yields a
state satisfying the restricted invariant. -/
theorem save_preserves_assignment_invariant_witness :
    assignmentInvariant [asg1] :=
  save_preserves_assignment_invariant asg1 [] [asg1]
    (fun a ha => absurd ha (List.not_mem_nil a)) (by decide)

/-- C2 counterexample data: a warranty contract. -/
def contractW : Contract := ⟨some CType.warranty, some 20250101, some 20251231⟩

/-- C2 counterexample data: a candidate whose SKU contract type (support-ea)
differs from its contract type (warranty). -/
def asgMismatch : ContractAssignment :=
  ⟨3, some contractW, some skuEA, some 1, some 20250201, some 20250301⟩

/-- C2 counterexample: a candidate with an asset, a SKU, a resolvable and
well-ordered effective period is rejected by validation although the
database is empty, so rejection is not equivalent to the existence of an
overlapping peer: the SKU/contract type mismatch also rejects. -/
theorem clean_rejects_without_overlap :
    asgMismatch.asset ≠ none ∧ asgMismatch.sku ≠ none ∧
    asgMismatch.effective_start_date = some 20250201 ∧
    asgMismatch.effective_end_date = some 20250301 ∧
    asgMismatch.clean [] = Except.error CleanError.typeMismatch ∧
    ¬ ∃ o ∈ ([] : List ContractAssignment), o.pk ≠ asgMismatch.pk ∧
        specOverlap asgMismatch o := by
  refine ⟨by decide, by decide, by decide, by decide, by rfl, by simp⟩

/-- C2 (amended): for a candidate with an asset, a SKU, a resolvable
effective start, well-ordered effective dates and no SKU/contract type
mismatch, validation accepts exactly when no other assignment on the same
(asset, SKU) key — the record itself excluded by identity — overlaps the
candidate under the clamped inclusive interval test. -/
theorem clean_ok_iff_no_overlap (a : ContractAssignment) (db : List ContractAssignment)
    (ha : ¬ a.asset = none) (hk : ¬ a.sku = none)
    (hs : ¬ a.effective_start_date = none)
    (hord : ∀ s e, a.effective_start_date = some s → a.effective_end_date = some e →
      s ≤ e)
    (htype : typeMismatchB a = false) :
    a.clean db = Except.ok () ↔
      ¬ ∃ o ∈ db, o.pk ≠ a.pk ∧ o.asset = a.asset ∧
        o.sku.map ContractSKU.sid = a.sku.map ContractSKU.sid ∧ specOverlap a o := by
  obtain ⟨s, hsd⟩ := Option.ne_none_iff_exists'.mp hs
  have hdord : dOrderViolB a = false := by
    unfold dOrderViolB
    rw [hsd]
    cases he : a.effective_end_date with
    | none => rfl
    | some e =>
      have := hord s e hsd he
      simp [not_lt.mpr this]
  have hexists : hasOverlappingPeer a db = true ↔
      ∃ o ∈ db, o.pk ≠ a.pk ∧ o.asset = a.asset ∧
        o.sku.map ContractSKU.sid = a.sku.map ContractSKU.sid ∧ specOverlap a o := by
    unfold hasOverlappingPeer
    rw [List.any_eq_true]
    constructor
    · rintro ⟨o, ho, hpo⟩
      have hp : peerB a o = true ∧ overlapB a o = true := by simpa using hpo
      obtain ⟨hp1, hp2⟩ := hp
      have hov := (overlapB_eq_specOverlap a o s hsd).mp hp2
      unfold peerB at hp1
      simp only [Bool.and_eq_true, decide_eq_true_eq] at hp1
      exact ⟨o, ho, hp1.1.1, hp1.1.2, hp1.2, hov⟩
    · rintro ⟨o, ho, hpk, hasset, hsku, hov⟩
      refine ⟨o, ho, ?_⟩
      have hp1 : peerB a o = true := by
        unfold peerB
        simp [hpk, hasset, hsku]
      have hp2 : overlapB a o = true := (overlapB_eq_specOverlap a o s hsd).mpr hov
      simp [hp1, hp2]
  unfold ContractAssignment.clean
  rw [if_neg (fun h => h.elim ha hk)]
  rw [hdord, htype]
  simp only [Bool.false_eq_true, if_false, if_neg hs]
  by_cases hP : hasOverlappingPeer a db = true
  · rw [if_pos hP]
    exact iff_of_false (by simp) (fun hn => hn (hexists.mp hP))
  · rw [if_neg hP]
    exact iff_of_true rfl (fun hE => hP (hexists.mpr hE))

/-- C2 witness: the dated assignment against the empty database is accepted,
and indeed no overlapping peer exists. -/
theorem clean_ok_iff_no_overlap_witness :
    asg1.clean [] = Except.ok () ↔
      ¬ ∃ o ∈ ([] : List ContractAssignment), o.pk ≠ asg1.pk ∧ o.asset = asg1.asset ∧
        o.sku.map ContractSKU.sid = asg1.sku.map ContractSKU.sid ∧ specOverlap asg1 o :=
  clean_ok_iff_no_overlap asg1 [] (by decide) (by decide) (by decide)
    (by
      intro s e hsd hed
      simp [asg1, ContractAssignment.effective_end_date] at hed)
    (by decide)

/-- A second coverage-downgrade pass over an already reconciled row writes
nothing: a downgraded row is no longer active, a kept row still matches. -/
theorem reconcileCoverage_second_pass (db : List ContractAssignment) (today : PDate)
    (c : AssetProgramCoverage) :
    (reconcileCoverage db today (reconcileCoverage db today c).1).2 = false := by
  by_cases h1 : c.status = PCStatus.active
  · by_cases h2 : hasCurrentMatchingAssignment db c.asset.aid c.program today = true
    · simp [reconcileCoverage, h1, h2]
    · simp [reconcileCoverage, h1, h2]
  · simp [reconcileCoverage, h1]

/-- A second support recompute over an already reconciled asset writes
nothing: all recomputed fields already hold their target values. -/
theorem reconcileAssetSupport_second_pass (db : List ContractAssignment) (today : PDate)
    (asset : Asset) :
    (reconcileAssetSupport db today (reconcileAssetSupport db today asset).1).2 = false := by
  by_cases hex : asset.support_state = SupportState.excluded
  · simp [reconcileAssetSupport, hex]
  · by_cases hact : hasAnyActiveAssignment db asset.aid today = true
    · simp [reconcileAssetSupport, hex, hact]
    · simp [reconcileAssetSupport, hex, hact]

/-- C7: running the reconciliation engine (coverage downgrade pass followed
by the asset support recompute) twice on the same day with unchanged
assignment data performs no write on the second run. -/
theorem reconcile_engine_idempotent (db : List ContractAssignment) (today : PDate)
    (covs : List AssetProgramCoverage) (asset : Asset) :
    (reconcileAllForAsset db today
      (reconcileAllForAsset db today covs asset).1.1
      (reconcileAllForAsset db today covs asset).1.2).2 = 0 := by
  unfold reconcileAllForAsset reconcileCoveragesForAsset
  simp only [List.map_map, Function.comp_def]
  rw [reconcileAssetSupport_second_pass]
  have hnil :
      ((covs.map fun c =>
          reconcileCoverage db today (reconcileCoverage db today c).1).filter
        Prod.snd) = [] := by
    rw [List.filter_eq_nil_iff]
    intro p hp
    obtain ⟨c, _, rfl⟩ := List.mem_map.mp hp
    simp [reconcileCoverage_second_pass]
  simp [hnil]

/-- C6 scenario data: a device type of the given manufacturer that is
EA-eligible. -/
def dtOfMfr (m : Nat) : DeviceTypeRec := ⟨50, m, some true, none⟩

/-- C6 scenario data: asset 1 of the given manufacturer. -/
def assetOfMfr (m : Nat) : Asset :=
  ⟨1, some (dtOfMfr m), SupportState.unknown, none, SupportSource.manual, none⟩

/-- C6 scenario data: the support-ea program of manufacturer X. -/
def progEA (m : Nat) : VendorProgram := ⟨some m, some CType.supportEA⟩

/-- C6 scenario data: contract A of type support-ea. -/
def contractEA : Contract := ⟨some CType.supportEA, none, none⟩

/-- C6 scenario data: a contract of a different type (warranty). -/
def contractWr : Contract := ⟨some CType.warranty, none, none⟩

/-- C6 scenario data: SKU S of manufacturer X with type support-ea. -/
def skuOf (m : Nat) : ContractSKU := ⟨5, m, some CType.supportEA⟩

/-- C6 scenario data: a coverage row on the program of manufacturer X with
no effective dates yet. -/
def covScenario (m : Nat) (st : PCStatus) (el : PElig) : AssetProgramCoverage :=
  ⟨7, assetOfMfr m, progEA m, st, el, none, none, "", CovSource.manual, none⟩

/-- C6 counterexample: the activation scenario run on a coverage whose
eligibility is unknown (hence not ineligible) fails coverage validation
(ACTIVE requires ELIGIBLE — the action never sets eligibility), and the
ContractAssignment write has already happened when it fails. -/
theorem activate_unknown_eligibility_fails :
    (activateCoverage 20250601 [] 9 (covScenario 10 PCStatus.planned PElig.unknown)
        contractEA (skuOf 10) (some 20250101) none).1 =
      some (ActError.coverageInvalid CovError.guardrail) ∧
    (activateCoverage 20250601 [] 9 (covScenario 10 PCStatus.planned PElig.unknown)
        contractEA (skuOf 10) (some 20250101) none).2.1 ≠ [] := by
  decide

/-- C6 (amended): on a coverage that is already eligible, whose program is
(support-ea, manufacturer X) and whose asset manufacturer resolves to X,
activating with a support-ea contract, a SKU of manufacturer X and start
2025-01-01 (today being on or after that date) succeeds and leaves status
active, eligibility eligible, effective_start 2025-01-01, having created
the assignment; the same call with a contract of a different contract type
fails before any write: no assignment is created and the coverage row is
unchanged. -/
theorem activate_scenario (today : PDate) (m : Nat) (st : PCStatus)
    (h1 : (20250101 : Int) ≤ today) (h2 : today ≤ dateMaxV) :
    (activateCoverage today [] 9 (covScenario m st PElig.eligible) contractEA (skuOf m)
        (some 20250101) none).1 = none ∧
    (activateCoverage today [] 9 (covScenario m st PElig.eligible) contractEA (skuOf m)
        (some 20250101) none).2.2.status = PCStatus.active ∧
    (activateCoverage today [] 9 (covScenario m st PElig.eligible) contractEA (skuOf m)
        (some 20250101) none).2.2.eligibility = PElig.eligible ∧
    (activateCoverage today [] 9 (covScenario m st PElig.eligible) contractEA (skuOf m)
        (some 20250101) none).2.2.effective_start = some 20250101 ∧
    (activateCoverage today [] 9 (covScenario m st PElig.eligible) contractEA (skuOf m)
        (some 20250101) none).2.1 =
      [⟨9, some contractEA, some (skuOf m), some 1, some 20250101, none⟩] ∧
    activateCoverage today [] 9 (covScenario m st PElig.eligible) contractWr (skuOf m)
        (some 20250101) none =
      (some ActError.contractTypeMismatch, [], covScenario m st PElig.eligible) := by
  have hd1 : decide ((20250101 : Int) ≤ today) = true := decide_eq_true h1
  have hd2 : decide (today ≤ dateMaxV) = true := decide_eq_true h2
  refine ⟨?_, ?_, ?_, ?_, ?_, ?_⟩ <;>
    simp [activateCoverage, covScenario, progEA, assetOfMfr, dtOfMfr, skuOf,
      contractEA, contractWr, getAssetManufacturer, ContractAssignment.clean,
      dOrderViolB, typeMismatchB, hasOverlappingPeer, AssetProgramCoverage.clean,
      covDateInsaneB, guardrailViolB, manufacturerViolB, terminatedEndViolB,
      activeContractViolB, hasCurrentMatchingAssignment, matchesProgram,
      isCurrentAssignment, ContractAssignment.effective_start_date,
      ContractAssignment.effective_end_date, hd1, hd2]

/-- C6 witness: the scenario at manufacturer 10, a planned coverage and
today 2025-06-01. -/
theorem activate_scenario_witness :
    (activateCoverage 20250601 [] 9 (covScenario 10 PCStatus.planned PElig.eligible)
        contractEA (skuOf 10) (some 20250101) none).1 = none ∧
    (activateCoverage 20250601 [] 9 (covScenario 10 PCStatus.planned PElig.eligible)
        contractEA (skuOf 10) (some 20250101) none).2.2.status = PCStatus.active ∧
    (activateCoverage 20250601 [] 9 (covScenario 10 PCStatus.planned PElig.eligible)
        contractEA (skuOf 10) (some 20250101) none).2.2.eligibility = PElig.eligible ∧
    (activateCoverage 20250601 [] 9 (covScenario 10 PCStatus.planned PElig.eligible)
        contractEA (skuOf 10) (some 20250101) none).2.2.effective_start = some 20250101 ∧
    (activateCoverage 20250601 [] 9 (covScenario 10 PCStatus.planned PElig.eligible)
        contractEA (skuOf 10) (some 20250101) none).2.1 =
      [⟨9, some contractEA, some (skuOf 10), some 1, some 20250101, none⟩] ∧
    activateCoverage 20250601 [] 9 (covScenario 10 PCStatus.planned PElig.eligible)
        contractWr (skuOf 10) (some 20250101) none =
      (some ActError.contractTypeMismatch, [],
        covScenario 10 PCStatus.planned PElig.eligible) :=
  activate_scenario 20250601 10 PCStatus.planned (by norm_num) (by norm_num [dateMaxV])

/-- C10 counterexample data: a device type that is not EA-eligible
(ea_eligible unset, no exclusion text). -/
def dtNotEligible : DeviceTypeRec := ⟨60, 10, none, none⟩

/-- C10 counterexample data: a Cisco asset of that device type. -/
def assetNotEligible : Asset :=
  ⟨3, some dtNotEligible, SupportState.unknown, none, SupportSource.manual, none⟩

/-- C10 counterexample data: its current coverage row, planned, manually
sourced and never synced. -/
def covManual : AssetProgramCoverage :=
  ⟨8, assetNotEligible, progEA 10, PCStatus.planned, PElig.unknown, none, none, "",
    CovSource.manual, none⟩

/-- C10 counterexample: the failing row is counted as failed with status and
eligibility reverted, but its in-memory changes are not fully reverted:
source and last_synced keep their new values. -/
theorem sync_ineligible_revert_incomplete :
    (syncExistingCoverage lifecycleNone 100 200 [] covManual).2 =
      SyncOutcome.failedRow ∧
    (syncExistingCoverage lifecycleNone 100 200 [] covManual).1.status =
      PCStatus.planned ∧
    (syncExistingCoverage lifecycleNone 100 200 [] covManual).1.eligibility =
      PElig.unknown ∧
    (syncExistingCoverage lifecycleNone 100 200 [] covManual).1.last_synced ≠
      covManual.last_synced ∧
    (syncExistingCoverage lifecycleNone 100 200 [] covManual).1.source ≠
      covManual.source := by
  decide

set_option maxRecDepth 8000 in
set_option maxHeartbeats 1000000 in
/-- C10 (amended): when the evaluator returns ineligible for an asset whose
current row is planned, the row is set to excluded/ineligible, a combination
validation always rejects, so the row is counted as failed and never
persisted; its status, eligibility, decision_reason and effective_end
changes are reverted in memory (source and last_synced remain updated but
unpersisted), and the remaining rows of the batch are still processed. -/
theorem sync_ineligible_planned_isolated (lifecycleOf : Nat → Option HardwareLifecycle)
    (today now : PDate) (db : List ContractAssignment) (cov : AssetProgramCoverage)
    (rest : List AssetProgramCoverage)
    (helig : (evaluate_asset lifecycleOf today cov.asset).eligibility = PElig.ineligible)
    (hst : cov.status = PCStatus.planned) :
    (syncExistingCoverage lifecycleOf today now db cov).2 = SyncOutcome.failedRow ∧
    (syncExistingCoverage lifecycleOf today now db cov).1.status = cov.status ∧
    (syncExistingCoverage lifecycleOf today now db cov).1.eligibility = cov.eligibility ∧
    (syncExistingCoverage lifecycleOf today now db cov).1.decision_reason =
      cov.decision_reason ∧
    (syncExistingCoverage lifecycleOf today now db cov).1.effective_end =
      cov.effective_end ∧
    (syncExistingCoverage lifecycleOf today now db cov).1.effective_start =
      cov.effective_start ∧
    (syncExistingCoverage lifecycleOf today now db cov).1.source = CovSource.sync ∧
    (syncExistingCoverage lifecycleOf today now db cov).1.last_synced = some now ∧
    runSyncBatch lifecycleOf today now db (cov :: rest) =
      syncExistingCoverage lifecycleOf today now db cov ::
        runSyncBatch lifecycleOf today now db rest ∧
    failedCount (runSyncBatch lifecycleOf today now db (cov :: rest)) =
      failedCount (runSyncBatch lifecycleOf today now db rest) + 1 := by
  have hkey : ∃ c', syncExistingCoverage lifecycleOf today now db cov =
      (c', SyncOutcome.failedRow) ∧
      c'.status = cov.status ∧ c'.eligibility = cov.eligibility ∧
      c'.decision_reason = cov.decision_reason ∧
      c'.effective_end = cov.effective_end ∧
      c'.effective_start = cov.effective_start ∧
      c'.source = CovSource.sync ∧ c'.last_synced = some now := by
    unfold syncExistingCoverage
    generalize hrr : evaluate_asset lifecycleOf today cov.asset = rr at helig ⊢
    have hstep : syncEnforceStatus today cov rr (syncC4 now cov rr)
        (syncChanged0 cov rr) =
        ({syncC4 now cov rr with status := PCStatus.excluded}, true) := by
      unfold syncEnforceStatus
      rw [helig]
      simp [hst]
    rw [hstep]
    have hg : guardrailViolB {syncC4 now cov rr with status := PCStatus.excluded} =
        true := by
      simp [guardrailViolB, syncC4, helig]
    have herr : ∃ e,
        AssetProgramCoverage.clean
          ({syncC4 now cov rr with status := PCStatus.excluded}) db today =
          Except.error e := by
      unfold AssetProgramCoverage.clean
      by_cases hd : covDateInsaneB {syncC4 now cov rr with status := PCStatus.excluded} =
          true
      · exact ⟨CovError.dateSanity, by simp [hd]⟩
      · exact ⟨CovError.guardrail, by simp [hd, hg]⟩
    obtain ⟨e, he⟩ := herr
    unfold syncFinalize
    rw [he]
    exact ⟨_, rfl, rfl, rfl, rfl, rfl, by simp [syncC4], by simp [syncC4],
      by simp [syncC4]⟩
  obtain ⟨c', heq, hs1, hs2, hs3, hs4, hs5, hs6, hs7⟩ := hkey
  refine ⟨?_, ?_, ?_, ?_, ?_, ?_, ?_, ?_, ?_, ?_⟩
  · rw [heq]
  · rw [heq]; exact hs1
  · rw [heq]; exact hs2
  · rw [heq]; exact hs3
  · rw [heq]; exact hs4
  · rw [heq]; exact hs5
  · rw [heq]; exact hs6
  · rw [heq]; exact hs7
  · rfl
  · simp [runSyncBatch, failedCount, List.countP_cons, heq]

/-- C10 witness: the concrete manual planned row at sync time 200. -/
theorem sync_ineligible_planned_isolated_witness :
    (syncExistingCoverage lifecycleNone 100 200 [] covManual).2 =
      SyncOutcome.failedRow ∧
    (syncExistingCoverage lifecycleNone 100 200 [] covManual).1.status =
      covManual.status ∧
    (syncExistingCoverage lifecycleNone 100 200 [] covManual).1.eligibility =
      covManual.eligibility ∧
    (syncExistingCoverage lifecycleNone 100 200 [] covManual).1.decision_reason =
      covManual.decision_reason ∧
    (syncExistingCoverage lifecycleNone 100 200 [] covManual).1.effective_end =
      covManual.effective_end ∧
    (syncExistingCoverage lifecycleNone 100 200 [] covManual).1.effective_start =
      covManual.effective_start ∧
    (syncExistingCoverage lifecycleNone 100 200 [] covManual).1.source =
      CovSource.sync ∧
    (syncExistingCoverage lifecycleNone 100 200 [] covManual).1.last_synced =
      some 200 ∧
    runSyncBatch lifecycleNone 100 200 [] [covManual] =
      syncExistingCoverage lifecycleNone 100 200 [] covManual ::
        runSyncBatch lifecycleNone 100 200 [] [] ∧
    failedCount (runSyncBatch lifecycleNone 100 200 [] [covManual]) =
      failedCount (runSyncBatch lifecycleNone 100 200 [] []) + 1 :=
  sync_ineligible_planned_isolated lifecycleNone 100 200 [] covManual []
    (by decide) (by decide)
